import Mathlib

/-!
Shallow embedding of the pulsar concurrency core:
  src/pulsar/async/fallbacks/asyncio.py  (Future, Task, event-loop surface)
  src/pulsar/async/events.py             (Event, OneTime, EventHandler)

Modelling conventions.
Callbacks are opaque identifiers (`Cb := Nat`); invoking a callback is
resolved through an explicit behaviour map `behave : Cb → Val → CbOutcome`
where a property depends on what the callback does.  Payload values and
exception objects are likewise opaque (`Val := Nat`, `Exc := Nat`).
The event loop is reduced to its ready queue: `call_soon` appends the
scheduled callback; handle objects carry no information the claims use.
Python methods that mutate `self` become functions returning the updated
state; a raised exception becomes an `Except.error` (for `bind_event`,
where the source can mutate before raising, the state is returned
alongside the `Except`).  The `_tb_logger` traceback-auditing attribute
(Python 3.3 only) and its activation scheduling are not modelled; no
claim concerns it.
-/

deriving instance DecidableEq for Except

namespace Pulsar

abbrev Cb := Nat

abbrev Val := Nat

abbrev Exc := Nat

/-- Python exception classes raised by the modelled code paths. -/
inductive PyErr
  | invalidState
  | valueError
  | assertionError
deriving DecidableEq

/-- Future states, from asyncio.py lines 347-349. -/
inductive FState
  | PENDING
  | CANCELLED
  | FINISHED
deriving DecidableEq

/-- The event loop, reduced to its ready queue of scheduled callbacks
(asyncio.py `BaseEventLoop._ready`). -/
structure Loop where
  ready : List Cb
deriving DecidableEq

/-- BaseEventLoop.call_soon: append a handle for the callback to the
ready queue (asyncio.py lines 153-156). -/
def Loop.call_soon (l : Loop) (cb : Cb) : Loop :=
  { ready := l.ready ++ [cb] }

/-- Future (asyncio.py lines 352-545): a single-assignment settlement
cell.  Fields mirror `_state`, `_result`, `_exception`, `_callbacks`. -/
structure Future where
  state : FState
  result : Option Val
  exception : Option Exc
  callbacks : List Cb
deriving DecidableEq

/-- Future.done (asyncio.py lines 422-428): the state is not PENDING. -/
def Future.done (f : Future) : Bool :=
  f.state ≠ FState.PENDING

/-- Future._schedule_callbacks (asyncio.py lines 402-414): copy the
callback list, clear it, and call_soon each callback in order; an empty
list returns early. -/
def Future.schedule_callbacks (f : Future) (l : Loop) : Future × Loop :=
  let callbacks := f.callbacks
  if callbacks = [] then (f, l)
  else ({ f with callbacks := [] }, callbacks.foldl Loop.call_soon l)

/-- Future.cancel (asyncio.py lines 389-400): false if not PENDING,
otherwise transition to CANCELLED, schedule the callbacks, return true. -/
def Future.cancel (f : Future) (l : Loop) : Bool × Future × Loop :=
  if f.state ≠ FState.PENDING then (false, f, l)
  else
    let r := Future.schedule_callbacks { f with state := FState.CANCELLED } l
    (true, r.1, r.2)

/-- Future.set_result (asyncio.py lines 492-502): raise InvalidStateError
if not PENDING; otherwise store the result, move to FINISHED and schedule
the callbacks. -/
def Future.set_result (f : Future) (v : Val) (l : Loop) :
    Except PyErr Unit × Future × Loop :=
  if f.state ≠ FState.PENDING then (Except.error PyErr.invalidState, f, l)
  else
    let r := Future.schedule_callbacks
      { f with result := some v, state := FState.FINISHED } l
    (Except.ok (), r.1, r.2)

/-- Future.set_exception (asyncio.py lines 504-518): raise
InvalidStateError if not PENDING; otherwise store the exception, move to
FINISHED and schedule the callbacks.  (The `_tb_logger` bookkeeping on
lines 515-518 is not modelled.) -/
def Future.set_exception (f : Future) (e : Exc) (l : Loop) :
    Except PyErr Unit × Future × Loop :=
  if f.state ≠ FState.PENDING then (Except.error PyErr.invalidState, f, l)
  else
    let r := Future.schedule_callbacks
      { f with exception := some e, state := FState.FINISHED } l
    (Except.ok (), r.1, r.2)

/-- Outcomes of Future.result, mirroring the exceptions it can raise. -/
inductive ResultErr
  | cancelled
  | invalidState
  | raised (e : Exc)
deriving DecidableEq

/-- Future.result (asyncio.py lines 430-446): CancelledError if
CANCELLED, InvalidStateError if not FINISHED, re-raise a stored
exception, otherwise return the stored result. -/
def Future.result_of (f : Future) : Except ResultErr (Option Val) :=
  if f.state = FState.CANCELLED then Except.error ResultErr.cancelled
  else if f.state ≠ FState.FINISHED then Except.error ResultErr.invalidState
  else
    match f.exception with
    | some e => Except.error (ResultErr.raised e)
    | none => Except.ok f.result

/-- Future.add_done_callback (asyncio.py lines 465-475): if already
settled, schedule the callback with call_soon (never invoke it
synchronously); otherwise append it to the pending list. -/
def Future.add_done_callback (f : Future) (l : Loop) (cb : Cb) :
    Future × Loop :=
  if f.state ≠ FState.PENDING then (f, l.call_soon cb)
  else ({ f with callbacks := f.callbacks ++ [cb] }, l)

/-- Task (asyncio.py lines 557-663): a Future driving a coroutine, with
the awaited waiter Future (`_fut_waiter`) and the pending-cancel flag
(`_must_cancel`).  The coroutine object itself and `Task._step` are not
needed by the modelled claims. -/
structure Task where
  fut : Future
  futWaiter : Option Future
  mustCancel : Bool
deriving DecidableEq

/-- Task.cancel (asyncio.py lines 642-653): false if done; else if a
waiter exists and its cancel() succeeds, leave `_must_cancel` untouched
and return true; otherwise arm `_must_cancel` and return true. -/
def Task.cancel (t : Task) (l : Loop) : Bool × Task × Loop :=
  if t.fut.done then (false, t, l)
  else
    match t.futWaiter with
    | some w =>
      let r := Future.cancel w l
      if r.1 then (true, { t with futWaiter := some r.2.1 }, r.2.2)
      else (true, { t with futWaiter := some r.2.1, mustCancel := true }, r.2.2)
    | none => (true, { t with mustCancel := true }, l)

/-- Outcome of invoking a bound callback: a plain return value, a
generator (admitted to the task scheduler by `async`), or a raised
exception (events.py lines 67-75). -/
inductive CbOutcome
  | ret
  | gen
  | exn
deriving DecidableEq

/-- Effects accumulated while firing a dispatcher: the invocations made
(callback, argument) in order, the callbacks whose exception was logged,
and the callbacks whose returned generator was admitted via `async`. -/
structure Fx where
  calls : List (Cb × Val)
  cbErrors : List Cb
  admitted : List Cb
deriving DecidableEq

def Fx.empty : Fx := ⟨[], [], []⟩

/-- Event (events.py lines 45-75): `_handlers`, `_fired`, `_silenced`. -/
structure Event where
  handlers : List Cb
  fired : Nat
  silenced : Bool
deriving DecidableEq

def Event.new : Event := ⟨[], 0, false⟩

/-- AbstractEvent.silence (events.py lines 37-42). -/
def Event.silence (e : Event) : Event :=
  { e with silenced := true }

/-- Event.bind (events.py lines 56-59): raise ValueError if an errback
is given, otherwise append the callback. -/
def Event.bind (e : Event) (cb : Cb) (eb : Option Cb) : Except PyErr Event :=
  if eb.isSome then Except.error PyErr.valueError
  else Except.ok { e with handlers := e.handlers ++ [cb] }

/-- One handler invocation in Event.fire (events.py lines 67-75): call
the handler, log an exception, otherwise admit a returned generator. -/
def fireStep (behave : Cb → Val → CbOutcome) (arg : Val) (fx : Fx) (c : Cb) :
    Fx :=
  match behave c arg with
  | CbOutcome.exn =>
    { fx with calls := fx.calls ++ [(c, arg)], cbErrors := fx.cbErrors ++ [c] }
  | CbOutcome.gen =>
    { fx with calls := fx.calls ++ [(c, arg)], admitted := fx.admitted ++ [c] }
  | CbOutcome.ret => { fx with calls := fx.calls ++ [(c, arg)] }

/-- Event.fire (events.py lines 64-75): no-op if silenced; otherwise
increment the fire count and invoke every handler in binding order,
isolating each invocation. -/
def Event.fire (behave : Cb → Val → CbOutcome) (e : Event) (arg : Val) :
    Event × Fx :=
  if e.silenced then (e, Fx.empty)
  else
    ({ e with fired := e.fired + 1 },
     e.handlers.foldl (fireStep behave arg) Fx.empty)

/-- Modelled from the spec: the chainable settlement primitive
`Deferred` (imported from `pulsar.async.defer`, which is not under
src/).  Per spec section 3 (OneTime), it supports settling with a value
exactly once, registering a callback/errback pair at any time (queued
before settlement, invoked immediately with the stored value after
settlement), and chaining.  Callback return values, and hence the chain
re-draining when a callback returns another Deferred, are not modelled:
invocations are recorded as (callback, value) pairs. -/
structure Deferred where
  done : Bool
  value : Option Val
  callbacks : List (Cb × Option Cb)
deriving DecidableEq

def Deferred.new : Deferred := ⟨false, none, []⟩

/-- Modelled from the spec: Deferred.add_callback registers a
callback/errback pair; after settlement the callback is invoked
immediately with the stored value, before settlement it is queued. -/
def Deferred.add_callback (d : Deferred) (cb : Cb) (eb : Option Cb) :
    Deferred × List (Cb × Val) :=
  if d.done then
    (d, match d.value with
        | some v => [(cb, v)]
        | none => [])
  else ({ d with callbacks := d.callbacks ++ [(cb, eb)] }, [])

/-- Modelled from the spec: Deferred.callback settles the chain with a
value exactly once — a second settlement raises InvalidStateError — and
drains the queued callbacks in registration order with that value. -/
def Deferred.callback (d : Deferred) (v : Val) :
    Except PyErr (Deferred × List (Cb × Val)) :=
  if d.done then Except.error PyErr.invalidState
  else
    Except.ok (⟨true, some v, []⟩, d.callbacks.map (fun p => (p.1, v)))

/-- Modelled from the spec: Deferred.has_callbacks. -/
def Deferred.has_callbacks (d : Deferred) : Bool :=
  d.callbacks ≠ []

/-- OneTime (events.py lines 78-115): a Deferred (the outer settlement,
field `outer`) that owns an inner Deferred chain (`_events`, field
`events`), plus the silenced flag and the `_chained_to` marker inherited
from Deferred. -/
structure OneTime where
  outer : Deferred
  events : Deferred
  silenced : Bool
  chainedTo : Bool
deriving DecidableEq

def OneTime.new : OneTime := ⟨Deferred.new, Deferred.new, false, false⟩

/-- OneTime.bind (events.py lines 90-91): add the callback/errback pair
to the inner chain. -/
def OneTime.bind (o : OneTime) (cb : Cb) (eb : Option Cb) :
    OneTime × List (Cb × Val) :=
  let r := o.events.add_callback cb eb
  ({ o with events := r.1 }, r.2)

/-- OneTime.fired (events.py lines 93-94): whether the inner chain has
settled, as 0 or 1. -/
def OneTime.fired_count (o : OneTime) : Nat :=
  if o.events.done then 1 else 0

/-- OneTime.fire (events.py lines 96-107): no-op if silenced; raise
ValueError on keyword arguments; otherwise settle the inner chain
(InvalidStateError on a second fire) and, unless chained elsewhere,
settle the outer Deferred with the result.  Since callback return values
are not modelled, the chain result is never itself a Deferred and the
still-draining `_check` branch (lines 103-105, 109-115) does not
arise. -/
def OneTime.fire (o : OneTime) (arg : Val) (kwargs : Bool) :
    Except PyErr (OneTime × Fx) :=
  if o.silenced then Except.ok (o, Fx.empty)
  else if kwargs then Except.error PyErr.valueError
  else
    match Deferred.callback o.events arg with
    | Except.error e => Except.error e
    | Except.ok r =>
      if o.chainedTo then
        Except.ok ({ o with events := r.1 }, ⟨r.2, [], []⟩)
      else
        match Deferred.callback o.outer arg with
        | Except.error e => Except.error e
        | Except.ok r2 =>
          Except.ok (⟨r2.1, r.1, o.silenced, o.chainedTo⟩,
                     ⟨r.2 ++ r2.2, [], []⟩)

/-- A named dispatcher held by an EventHandler: a repeatable Event or a
OneTime (events.py line 133 and 138). -/
inductive Dispatcher
  | evt (e : Event)
  | oneTime (o : OneTime)
deriving DecidableEq

/-- Dispatcher.bind with no errback, the shape used by the list loop of
bind_event (events.py line 173) and by copy_many_times_events (line
244); it never raises. -/
def Dispatcher.bind1 : Dispatcher → Cb → Dispatcher × List (Cb × Val)
  | Dispatcher.evt e, c =>
    (Dispatcher.evt { e with handlers := e.handlers ++ [c] }, [])
  | Dispatcher.oneTime o, c =>
    let r := o.bind c none
    (Dispatcher.oneTime r.1, r.2)

/-- Dispatcher.bind with an optional errback (events.py line 175):
an Event rejects an errback with ValueError. -/
def Dispatcher.bind (d : Dispatcher) (c : Cb) (eb : Option Cb) :
    Except PyErr (Dispatcher × List (Cb × Val)) :=
  match d with
  | Dispatcher.evt e =>
    match Event.bind e c eb with
    | Except.error er => Except.error er
    | Except.ok e2 => Except.ok (Dispatcher.evt e2, [])
  | Dispatcher.oneTime o =>
    let r := o.bind c eb
    Except.ok (Dispatcher.oneTime r.1, r.2)

/-- Dispatcher.fire: delegate to the underlying Event or OneTime fire
(keyword arguments reach only the OneTime check; an Event passes them
through to its handlers, whose content the model keeps opaque). -/
def Dispatcher.fire (behave : Cb → Val → CbOutcome) (d : Dispatcher)
    (arg : Val) (kwargs : Bool) : Except PyErr (Dispatcher × Fx) :=
  match d with
  | Dispatcher.evt e =>
    let r := Event.fire behave e arg
    Except.ok (Dispatcher.evt r.1, r.2)
  | Dispatcher.oneTime o =>
    match OneTime.fire o arg kwargs with
    | Except.error er => Except.error er
    | Except.ok r => Except.ok (Dispatcher.oneTime r.1, r.2)

/-- Associative lookup on the event mapping, first match (Python dict
keys are unique; lists built here keep them unique). -/
def alookup : List (String × Dispatcher) → String → Option Dispatcher
  | [], _ => none
  | p :: t, n => if p.1 = n then some p.2 else alookup t n

/-- Replace the value at a key in place, first match (the in-place
mutation of the dispatcher object found in the dict). -/
def setAt : List (String × Dispatcher) → String → Dispatcher →
    List (String × Dispatcher)
  | [], _, _ => []
  | p :: t, n, d => if p.1 = n then (n, d) :: t else p :: setAt t n d

/-- Insert a fresh binding or overwrite an existing one, as Python dict
construction and `dict.update` do (events.py lines 133 and 138). -/
def upsert : List (String × Dispatcher) → String → Dispatcher →
    List (String × Dispatcher)
  | [], n, d => [(n, d)]
  | p :: t, n, d => if p.1 = n then (n, d) :: t else p :: upsert t n d

/-- EventHandler (events.py lines 118-244): the name→dispatcher
mapping `_events`, as an insertion-ordered association list. -/
structure EventHandler where
  events : List (String × Dispatcher)
deriving DecidableEq

/-- EventHandler.__init__ (events.py lines 128-139): build OneTime
entries for the one-time names first, then overwrite with Event entries
for the many-times names.  The argument lists are the merged class-level
and instance-level name sets. -/
def EventHandler.init (one many : List String) : EventHandler :=
  let evs := one.foldl
    (fun m nm => upsert m nm (Dispatcher.oneTime OneTime.new)) []
  ⟨many.foldl (fun m nm => upsert m nm (Dispatcher.evt Event.new)) evs⟩

/-- The callback argument of bind_event: a single callable or a
list/tuple of callables (events.py lines 170-175). -/
inductive CbArg
  | one (c : Cb)
  | many (cs : List Cb)
deriving DecidableEq

/-- Lines 167-169 of events.py: lazily create a repeatable Event for an
unknown name, then fetch the dispatcher at the name. -/
def getOrCreate (es : List (String × Dispatcher)) (name : String) :
    List (String × Dispatcher) × Dispatcher :=
  match alookup es name with
  | some d => (es, d)
  | none => (es ++ [(name, Dispatcher.evt Event.new)], Dispatcher.evt Event.new)

/-- Fold a list of callbacks into a dispatcher with bind1, accumulating
immediate invocations (the `for cbk in callback` loop shape). -/
def bindAll (d : Dispatcher) (cs : List Cb) : Dispatcher × List (Cb × Val) :=
  cs.foldl (fun a c => let r := Dispatcher.bind1 a.1 c; (r.1, a.2 ++ r.2))
    (d, [])

/-- EventHandler.bind_event (events.py lines 154-175): create the event
if the name is unknown; a list of callbacks with an errback fails the
assert (after the creation — the source mutates before raising, so the
updated handler is returned alongside the error); otherwise bind. -/
def EventHandler.bind_event (h : EventHandler) (name : String)
    (cbarg : CbArg) (eb : Option Cb) :
    EventHandler × Except PyErr (List (Cb × Val)) :=
  let p := getOrCreate h.events name
  match cbarg with
  | CbArg.many cs =>
    if eb.isSome then (⟨p.1⟩, Except.error PyErr.assertionError)
    else
      let q := bindAll p.2 cs
      (⟨setAt p.1 name q.1⟩, Except.ok q.2)
  | CbArg.one c =>
    match Dispatcher.bind p.2 c eb with
    | Except.error e => (⟨p.1⟩, Except.error e)
    | Except.ok r => (⟨setAt p.1 name r.1⟩, Except.ok r.2)

/-- Log entries emitted by fire_event (events.py lines 204 and 206). -/
inductive LogEntry
  | unknownName (n : String)
  | alreadyFired (n : String)
deriving DecidableEq

/-- EventHandler.fire_event (events.py lines 184-206): unknown names are
logged and ignored; a dispatcher InvalidStateError (double fire of a
one-time event) is caught and logged; any other exception — notably the
ValueError for keyword arguments on a one-time fire — propagates to the
caller.  The model takes the positional argument already defaulted (the
`arg is None → self` defaulting at lines 198-199 only chooses the
payload, which the claims treat as opaque). -/
def EventHandler.fire_event (behave : Cb → Val → CbOutcome)
    (h : EventHandler) (name : String) (arg : Val) (kwargs : Bool) :
    EventHandler × List LogEntry × Except PyErr Fx :=
  match alookup h.events name with
  | some d =>
    match Dispatcher.fire behave d arg kwargs with
    | Except.ok r => (⟨setAt h.events name r.1⟩, [], Except.ok r.2)
    | Except.error PyErr.invalidState =>
      (h, [LogEntry.alreadyFired name], Except.ok Fx.empty)
    | Except.error e => (h, [], Except.error e)
  | none => (h, [LogEntry.unknownName name], Except.ok Fx.empty)

/-- EventHandler.silence_event (events.py lines 208-216). -/
def EventHandler.silence_event (h : EventHandler) (name : String) :
    EventHandler :=
  match alookup h.events name with
  | some (Dispatcher.evt e) => ⟨setAt h.events name (Dispatcher.evt e.silence)⟩
  | some (Dispatcher.oneTime o) =>
    ⟨setAt h.events name (Dispatcher.oneTime { o with silenced := true })⟩
  | none => h

/-- One iteration of copy_many_times_events (events.py lines 238-244):
if the entry of `other` is a repeatable Event and `self` has a
dispatcher under the same name, bind every handler reference into it. -/
def copyStep (acc : EventHandler × List (Cb × Val))
    (p : String × Dispatcher) : EventHandler × List (Cb × Val) :=
  match p.2 with
  | Dispatcher.evt e =>
    match alookup acc.1.events p.1 with
    | some d =>
      let r := bindAll d e.handlers
      (⟨setAt acc.1.events p.1 r.1⟩, acc.2 ++ r.2)
    | none => acc
  | Dispatcher.oneTime _ => acc

/-- EventHandler.copy_many_times_events (events.py lines 230-244):
iterate the entries of `other`, copying handler references of its
repeatable Events into `self`'s same-named dispatchers. -/
def EventHandler.copy_many_times_events (h other : EventHandler) :
    EventHandler × List (Cb × Val) :=
  other.events.foldl copyStep (h, [])

/-! Helper lemmas shared by the claim theorems. -/

/-- Folding call_soon over a callback list appends it to the ready queue
in order. -/
theorem loop_foldl_ready (cbs : List Cb) (l : Loop) :
    cbs.foldl Loop.call_soon l = ⟨l.ready ++ cbs⟩ := by
  induction cbs generalizing l with
  | nil => cases l; simp
  | cons c t ih => cases l; simp [Loop.call_soon, ih]

/-- Settlement clears the callback list and enqueues every registered
callback, in registration order, after the already-ready entries. -/
theorem schedule_callbacks_eq (f : Future) (l : Loop) :
    Future.schedule_callbacks f l =
      ({ f with callbacks := [] }, ⟨l.ready ++ f.callbacks⟩) := by
  unfold Future.schedule_callbacks
  by_cases h : f.callbacks = []
  · cases f; cases l; simp_all
  · simp [h, loop_foldl_ready]

/-- C3: set_result(v) succeeds only when the state is PENDING, setting
the state to FINISHED with stored result v and scheduling the callbacks;
any later set_result or set_exception on the same Future fails with an
invalid-state error and leaves the state and the stored value
unchanged. -/
theorem future_set_result_spec (f : Future) (l : Loop) (v : Val) (e : Exc) :
    (f.state = FState.PENDING →
      Future.set_result f v l =
        (Except.ok (),
         { f with result := some v, state := FState.FINISHED,
                  callbacks := [] },
         ⟨l.ready ++ f.callbacks⟩)) ∧
    (f.state ≠ FState.PENDING →
      Future.set_result f v l = (Except.error PyErr.invalidState, f, l)) ∧
    (f.state ≠ FState.PENDING →
      Future.set_exception f e l = (Except.error PyErr.invalidState, f, l)) := by
  refine ⟨fun h => ?_, fun h => ?_, fun h => ?_⟩
  · simp [Future.set_result, h, schedule_callbacks_eq]
  · simp [Future.set_result, h]
  · simp [Future.set_exception, h]

/-- Witness for C3: set_result(7) succeeds and settles FINISHED with
result 7; a second set_result(8) fails with invalid-state and the value
stays 7. -/
theorem future_set_result_spec_witness :
    Future.set_result ⟨FState.PENDING, none, none, []⟩ 7 ⟨[]⟩ =
      (Except.ok (), ⟨FState.FINISHED, some 7, none, []⟩, ⟨[]⟩) ∧
    Future.set_result ⟨FState.FINISHED, some 7, none, []⟩ 8 ⟨[]⟩ =
      (Except.error PyErr.invalidState,
       ⟨FState.FINISHED, some 7, none, []⟩, ⟨[]⟩) :=
  ⟨(future_set_result_spec ⟨FState.PENDING, none, none, []⟩ ⟨[]⟩ 7 0).1 rfl,
   (future_set_result_spec ⟨FState.FINISHED, some 7, none, []⟩ ⟨[]⟩ 8 0).2.1
     (by decide)⟩

/-- C4: cancel() returns true, transitions PENDING to CANCELLED and
schedules all registered callbacks, if and only if the Future is
currently PENDING; otherwise it returns false and changes nothing. -/
theorem future_cancel_spec (f : Future) (l : Loop) :
    (f.state = FState.PENDING →
      Future.cancel f l =
        (true, { f with state := FState.CANCELLED, callbacks := [] },
         ⟨l.ready ++ f.callbacks⟩)) ∧
    (f.state ≠ FState.PENDING → Future.cancel f l = (false, f, l)) := by
  refine ⟨fun h => ?_, fun h => ?_⟩
  · simp [Future.cancel, h, schedule_callbacks_eq]
  · simp [Future.cancel, h]

/-- Witness for C4: cancelling a PENDING Future with callbacks returns
true, settles CANCELLED and enqueues the callbacks; cancelling a
FINISHED Future returns false and keeps the stored result. -/
theorem future_cancel_spec_witness :
    Future.cancel ⟨FState.PENDING, none, none, [3, 4]⟩ ⟨[9]⟩ =
      (true, ⟨FState.CANCELLED, none, none, []⟩, ⟨[9, 3, 4]⟩) ∧
    Future.cancel ⟨FState.FINISHED, some 5, none, []⟩ ⟨[]⟩ =
      (false, ⟨FState.FINISHED, some 5, none, []⟩, ⟨[]⟩) :=
  ⟨(future_cancel_spec ⟨FState.PENDING, none, none, [3, 4]⟩ ⟨[9]⟩).1 rfl,
   (future_cancel_spec ⟨FState.FINISHED, some 5, none, []⟩ ⟨[]⟩).2 (by decide)⟩

/-- C5: result() returns the stored value when FINISHED without an
error, fails with a cancellation error when CANCELLED, re-raises the
stored error when FINISHED with an error, and fails with an
invalid-state error when still PENDING. -/
theorem future_result_spec (f : Future) :
    (f.state = FState.FINISHED → f.exception = none →
      Future.result_of f = Except.ok f.result) ∧
    (f.state = FState.CANCELLED →
      Future.result_of f = Except.error ResultErr.cancelled) ∧
    (∀ e, f.state = FState.FINISHED → f.exception = some e →
      Future.result_of f = Except.error (ResultErr.raised e)) ∧
    (f.state = FState.PENDING →
      Future.result_of f = Except.error ResultErr.invalidState) := by
  refine ⟨fun h1 h2 => ?_, fun h => ?_, fun e h1 h2 => ?_, fun h => ?_⟩
  · simp [Future.result_of, h1, h2]
  · simp [Future.result_of, h]
  · simp [Future.result_of, h1, h2]
  · simp [Future.result_of, h]

/-- Witness for C5: the four result() cases evaluated on concrete
Futures. -/
theorem future_result_spec_witness :
    Future.result_of ⟨FState.FINISHED, some 7, none, []⟩ = Except.ok (some 7) ∧
    Future.result_of ⟨FState.CANCELLED, none, none, []⟩ =
      Except.error ResultErr.cancelled ∧
    Future.result_of ⟨FState.FINISHED, none, some 3, []⟩ =
      Except.error (ResultErr.raised 3) ∧
    Future.result_of ⟨FState.PENDING, none, none, []⟩ =
      Except.error ResultErr.invalidState :=
  ⟨(future_result_spec ⟨FState.FINISHED, some 7, none, []⟩).1 rfl rfl,
   (future_result_spec ⟨FState.CANCELLED, none, none, []⟩).2.1 rfl,
   (future_result_spec ⟨FState.FINISHED, none, some 3, []⟩).2.2.1 3 rfl rfl,
   (future_result_spec ⟨FState.PENDING, none, none, []⟩).2.2.2 rfl⟩

/-- C6: add_done_callback(cb) appends cb to the pending callback list
when the Future is PENDING; when already settled it enqueues cb through
call_soon, never invoking it synchronously; settlement enqueues the
registered callbacks in registration order. -/
theorem future_add_done_callback_spec (f : Future) (l : Loop) (cb : Cb) :
    (f.state ≠ FState.PENDING →
      Future.add_done_callback f l cb = (f, ⟨l.ready ++ [cb]⟩)) ∧
    (f.state = FState.PENDING →
      Future.add_done_callback f l cb =
        ({ f with callbacks := f.callbacks ++ [cb] }, l)) ∧
    (Future.schedule_callbacks f l =
      ({ f with callbacks := [] }, ⟨l.ready ++ f.callbacks⟩)) := by
  refine ⟨fun h => ?_, fun h => ?_, schedule_callbacks_eq f l⟩
  · simp [Future.add_done_callback, h, Loop.call_soon]
  · simp [Future.add_done_callback, h]

/-- Witness for C6: on a FINISHED Future the callback is enqueued, not
invoked; on a PENDING Future it is appended after the existing
callbacks; settlement enqueues the list in registration order. -/
theorem future_add_done_callback_spec_witness :
    Future.add_done_callback ⟨FState.FINISHED, some 1, none, []⟩ ⟨[8]⟩ 5 =
      (⟨FState.FINISHED, some 1, none, []⟩, ⟨[8, 5]⟩) ∧
    Future.add_done_callback ⟨FState.PENDING, none, none, [2]⟩ ⟨[]⟩ 5 =
      (⟨FState.PENDING, none, none, [2, 5]⟩, ⟨[]⟩) ∧
    Future.schedule_callbacks ⟨FState.PENDING, none, none, [2, 5]⟩ ⟨[]⟩ =
      (⟨FState.PENDING, none, none, []⟩, ⟨[2, 5]⟩) :=
  ⟨(future_add_done_callback_spec ⟨FState.FINISHED, some 1, none, []⟩ ⟨[8]⟩
      5).1 (by decide),
   (future_add_done_callback_spec ⟨FState.PENDING, none, none, [2]⟩ ⟨[]⟩
      5).2.1 rfl,
   (future_add_done_callback_spec ⟨FState.PENDING, none, none, [2, 5]⟩ ⟨[]⟩
      0).2.2⟩

/-- C1 counterexample: a PENDING Task awaiting a PENDING waiter Future.
The waiter accepts cancellation (its cancel() reports success) and
Task.cancel returns true, yet the pending-cancel flag `_must_cancel` is
left unarmed, contradicting the claim that it is also armed. -/
theorem task_cancel_claim_counterexample :
    (Future.cancel ⟨FState.PENDING, none, none, []⟩ ⟨[]⟩).1 = true ∧
    (Task.cancel ⟨⟨FState.PENDING, none, none, []⟩,
        some ⟨FState.PENDING, none, none, []⟩, false⟩ ⟨[]⟩).1 = true ∧
    (Task.cancel ⟨⟨FState.PENDING, none, none, []⟩,
        some ⟨FState.PENDING, none, none, []⟩, false⟩ ⟨[]⟩).2.1.mustCancel
      = false := by decide

/-- C1 (amended): for a Task whose awaited waiter Future accepts
cancellation, Task.cancel() returns true, cancels the waiter and leaves
the pending-cancel flag `_must_cancel` unchanged (not armed); the flag
is armed, with true still returned, exactly when no waiter exists or the
waiter refuses cancellation; a settled Task returns false. -/
theorem task_cancel_spec (t : Task) (l : Loop) :
    (t.fut.state ≠ FState.PENDING → Task.cancel t l = (false, t, l)) ∧
    (∀ w, t.fut.state = FState.PENDING → t.futWaiter = some w →
      w.state = FState.PENDING →
      Task.cancel t l =
        (true,
         { t with
           futWaiter := some ⟨FState.CANCELLED, w.result, w.exception, []⟩ },
         ⟨l.ready ++ w.callbacks⟩) ∧
      (Task.cancel t l).2.1.mustCancel = t.mustCancel) ∧
    (∀ w, t.fut.state = FState.PENDING → t.futWaiter = some w →
      w.state ≠ FState.PENDING →
      Task.cancel t l = (true, { t with mustCancel := true }, l)) ∧
    (t.fut.state = FState.PENDING → t.futWaiter = none →
      Task.cancel t l = (true, { t with mustCancel := true }, l)) := by
  refine ⟨fun h => ?_, fun w h hw hws => ?_, fun w h hw hws => ?_,
    fun h hw => ?_⟩
  · simp [Task.cancel, Future.done, h]
  · constructor <;>
      simp [Task.cancel, Future.done, Future.cancel, h, hw, hws,
        schedule_callbacks_eq]
  · have ht : ({ t with futWaiter := some w, mustCancel := true } : Task) =
        { t with mustCancel := true } := by
      cases t; simp_all
    simp [Task.cancel, Future.done, Future.cancel, h, hw, hws, ht]
  · simp [Task.cancel, Future.done, h, hw]

/-- Witness for C1 (amended): evaluated on a PENDING Task with a PENDING
waiter, on one with a CANCELLED waiter, and on a settled Task. -/
theorem task_cancel_spec_witness :
    (Task.cancel ⟨⟨FState.PENDING, none, none, []⟩,
        some ⟨FState.PENDING, none, none, [4]⟩, false⟩ ⟨[]⟩ =
      (true, ⟨⟨FState.PENDING, none, none, []⟩,
        some ⟨FState.CANCELLED, none, none, []⟩, false⟩, ⟨[4]⟩) ∧
     (Task.cancel ⟨⟨FState.PENDING, none, none, []⟩,
        some ⟨FState.PENDING, none, none, [4]⟩, false⟩ ⟨[]⟩).2.1.mustCancel
       = false) ∧
    Task.cancel ⟨⟨FState.PENDING, none, none, []⟩,
        some ⟨FState.CANCELLED, none, none, []⟩, false⟩ ⟨[]⟩ =
      (true, ⟨⟨FState.PENDING, none, none, []⟩,
        some ⟨FState.CANCELLED, none, none, []⟩, true⟩, ⟨[]⟩) ∧
    Task.cancel ⟨⟨FState.FINISHED, some 2, none, []⟩, none, false⟩ ⟨[]⟩ =
      (false, ⟨⟨FState.FINISHED, some 2, none, []⟩, none, false⟩, ⟨[]⟩) :=
  ⟨(task_cancel_spec ⟨⟨FState.PENDING, none, none, []⟩,
      some ⟨FState.PENDING, none, none, [4]⟩, false⟩ ⟨[]⟩).2.1
      ⟨FState.PENDING, none, none, [4]⟩ rfl rfl rfl,
   (task_cancel_spec ⟨⟨FState.PENDING, none, none, []⟩,
      some ⟨FState.CANCELLED, none, none, []⟩, false⟩ ⟨[]⟩).2.2.1
      ⟨FState.CANCELLED, none, none, []⟩ rfl rfl (by decide),
   (task_cancel_spec ⟨⟨FState.FINISHED, some 2, none, []⟩, none, false⟩
      ⟨[]⟩).1 (by decide)⟩

/-- C7: on a non-silenced Event with bound callbacks A, B, C where B
raises, fire(x) invokes A(x), B(x), C(x) in binding order, increments
the fire count by exactly one, reports B's exception to the error sink
without preventing C from running, and returns normally (Event.fire is a
total function: no exception reaches the caller). -/
theorem event_fire_isolation_spec (behave : Cb → Val → CbOutcome)
    (A B C : Cb) (x : Val) (n : Nat)
    (hA : behave A x ≠ CbOutcome.exn) (hB : behave B x = CbOutcome.exn)
    (hC : behave C x ≠ CbOutcome.exn) :
    (Event.fire behave ⟨[A, B, C], n, false⟩ x).1 = ⟨[A, B, C], n + 1, false⟩ ∧
    (Event.fire behave ⟨[A, B, C], n, false⟩ x).2.calls =
      [(A, x), (B, x), (C, x)] ∧
    (Event.fire behave ⟨[A, B, C], n, false⟩ x).2.cbErrors = [B] := by
  rcases hA2 : behave A x with _ | _ | _ <;>
    rcases hC2 : behave C x with _ | _ | _ <;>
      simp_all [Event.fire, fireStep, Fx.empty]

/-- Witness for C7: callbacks 0, 1, 2 where callback 1 raises. -/
theorem event_fire_isolation_spec_witness :
    (Event.fire (fun c _ => if c = 1 then CbOutcome.exn else CbOutcome.ret)
        ⟨[0, 1, 2], 0, false⟩ 5).1 = ⟨[0, 1, 2], 1, false⟩ ∧
    (Event.fire (fun c _ => if c = 1 then CbOutcome.exn else CbOutcome.ret)
        ⟨[0, 1, 2], 0, false⟩ 5).2.calls = [(0, 5), (1, 5), (2, 5)] ∧
    (Event.fire (fun c _ => if c = 1 then CbOutcome.exn else CbOutcome.ret)
        ⟨[0, 1, 2], 0, false⟩ 5).2.cbErrors = [1] :=
  event_fire_isolation_spec
    (fun c _ => if c = 1 then CbOutcome.exn else CbOutcome.ret)
    0 1 2 5 0 (by decide) (by decide) (by decide)

/-- C9: after silence(), fire(x) invokes no bound callback and leaves
the fire count unchanged; the silenced flag is one-way — silence() sets
it and neither fire nor bind ever changes it. -/
theorem event_silence_spec (e : Event) (behave : Cb → Val → CbOutcome)
    (x : Val) :
    (e.silenced = true → Event.fire behave e x = (e, Fx.empty)) ∧
    ((Event.silence e).silenced = true) ∧
    ((Event.fire behave e x).1.silenced = e.silenced) ∧
    (∀ cb eb d, Event.bind e cb eb = Except.ok d →
      d.silenced = e.silenced) := by
  refine ⟨fun h => ?_, rfl, ?_, fun cb eb d hd => ?_⟩
  · simp [Event.fire, h]
  · by_cases h : e.silenced <;> simp [Event.fire, h]
  · unfold Event.bind at hd
    rcases eb with _ | c
    · simp at hd
      subst hd
      rfl
    · simp at hd

/-- Witness for C9: a silenced Event with a bound callback does not
invoke it and keeps its fire count. -/
theorem event_silence_spec_witness :
    Event.fire (fun _ _ => CbOutcome.ret) ⟨[3], 2, true⟩ 0 =
      (⟨[3], 2, true⟩, Fx.empty) :=
  (event_silence_spec ⟨[3], 2, true⟩ (fun _ _ => CbOutcome.ret) 0).1 rfl

/-- C2 counterexample: firing a one-time event with keyword arguments.
fire_event catches only InvalidStateError, so the ValueError raised by
OneTime.fire propagates out of fire_event, contradicting the claim that
every usage error degrades to a no-op without raising. -/
theorem handler_usage_error_counterexample :
    EventHandler.fire_event (fun _ _ => CbOutcome.ret)
      ⟨[("a", Dispatcher.oneTime OneTime.new)]⟩ "a" 0 true =
    (⟨[("a", Dispatcher.oneTime OneTime.new)]⟩, [],
     Except.error PyErr.valueError) := by decide

/-- C2 (amended): an unknown event name and a double-fire of a one-time
event are reported to the error sink and degrade to a no-op; but keyword
arguments on a non-silenced one-time fire raise ValueError out of
fire_event, and an error-callback paired with a list of callbacks raises
an assertion error out of bind_event. -/
theorem handler_usage_error_spec (behave : Cb → Val → CbOutcome)
    (h : EventHandler) (name : String) (arg : Val) :
    (alookup h.events name = none →
      EventHandler.fire_event behave h name arg false =
        (h, [LogEntry.unknownName name], Except.ok Fx.empty)) ∧
    (∀ o, alookup h.events name = some (Dispatcher.oneTime o) →
      o.silenced = false → o.events.done = true →
      EventHandler.fire_event behave h name arg false =
        (h, [LogEntry.alreadyFired name], Except.ok Fx.empty)) ∧
    (∀ o, alookup h.events name = some (Dispatcher.oneTime o) →
      o.silenced = false →
      EventHandler.fire_event behave h name arg true =
        (h, [], Except.error PyErr.valueError)) ∧
    (∀ cs eb, (EventHandler.bind_event h name (CbArg.many cs) (some eb)).2 =
      Except.error PyErr.assertionError) := by
  refine ⟨fun hl => ?_, fun o hl hs hd => ?_, fun o hl hs => ?_,
    fun cs eb => ?_⟩
  · simp [EventHandler.fire_event, hl]
  · simp [EventHandler.fire_event, Dispatcher.fire, OneTime.fire,
      Deferred.callback, hl, hs, hd]
  · simp [EventHandler.fire_event, Dispatcher.fire, OneTime.fire, hl, hs]
  · simp [EventHandler.bind_event]

/-- Witness for C2 (amended): the four cases on concrete handlers — an
unknown name, an already-fired one-time event, keyword arguments on a
one-time fire, and a callback list with an errback. -/
theorem handler_usage_error_spec_witness :
    EventHandler.fire_event (fun _ _ => CbOutcome.ret)
      (⟨[]⟩ : EventHandler) "x" 0 false =
      (⟨[]⟩, [LogEntry.unknownName "x"], Except.ok Fx.empty) ∧
    EventHandler.fire_event (fun _ _ => CbOutcome.ret)
      ⟨[("a", Dispatcher.oneTime ⟨⟨true, some 1, []⟩, ⟨true, some 1, []⟩,
        false, false⟩)]⟩ "a" 0 false =
      (⟨[("a", Dispatcher.oneTime ⟨⟨true, some 1, []⟩, ⟨true, some 1, []⟩,
        false, false⟩)]⟩, [LogEntry.alreadyFired "a"], Except.ok Fx.empty) ∧
    EventHandler.fire_event (fun _ _ => CbOutcome.ret)
      ⟨[("a", Dispatcher.oneTime OneTime.new)]⟩ "a" 0 true =
      (⟨[("a", Dispatcher.oneTime OneTime.new)]⟩, [],
       Except.error PyErr.valueError) ∧
    (EventHandler.bind_event ⟨[("b", Dispatcher.evt Event.new)]⟩ "b"
      (CbArg.many [1, 2]) (some 9)).2 = Except.error PyErr.assertionError :=
  ⟨(handler_usage_error_spec (fun _ _ => CbOutcome.ret) ⟨[]⟩ "x" 0).1 rfl,
   (handler_usage_error_spec (fun _ _ => CbOutcome.ret)
      ⟨[("a", Dispatcher.oneTime ⟨⟨true, some 1, []⟩, ⟨true, some 1, []⟩,
        false, false⟩)]⟩ "a" 0).2.1
      ⟨⟨true, some 1, []⟩, ⟨true, some 1, []⟩, false, false⟩
      (by decide) rfl rfl,
   (handler_usage_error_spec (fun _ _ => CbOutcome.ret)
      ⟨[("a", Dispatcher.oneTime OneTime.new)]⟩ "a" 0).2.2.1
      OneTime.new (by decide) rfl,
   (handler_usage_error_spec (fun _ _ => CbOutcome.ret)
      ⟨[("b", Dispatcher.evt Event.new)]⟩ "b" 0).2.2.2 [1, 2] 9⟩

/-- Looking up the key just written by upsert yields the new value. -/
theorem alookup_upsert_self (m : List (String × Dispatcher)) (k : String)
    (d : Dispatcher) : alookup (upsert m k d) k = some d := by
  induction m with
  | nil => simp [upsert, alookup]
  | cons p t ih =>
    by_cases h : p.1 = k
    · simp [upsert, h, alookup]
    · simp [upsert, h, alookup, ih]

/-- Upsert does not change the binding of any other key. -/
theorem alookup_upsert_other (m : List (String × Dispatcher)) (k n : String)
    (d : Dispatcher) (h : k ≠ n) : alookup (upsert m k d) n = alookup m n := by
  induction m with
  | nil => simp [upsert, alookup, h]
  | cons p t ih =>
    by_cases hp : p.1 = k
    · subst hp; simp [upsert, alookup, h]
    · simp [upsert, hp, alookup, ih]

/-- A binding already equal to the folded-in value survives a fold of
upserts that all write that same value. -/
theorem alookup_foldl_upsert_preserve (l : List String)
    (m : List (String × Dispatcher)) (d : Dispatcher) (n : String)
    (h : alookup m n = some d) :
    alookup (l.foldl (fun m2 k => upsert m2 k d) m) n = some d := by
  induction l generalizing m with
  | nil => exact h
  | cons k t ih =>
    refine ih (upsert m k d) ?_
    by_cases hk : k = n
    · subst hk; exact alookup_upsert_self m k d
    · rw [alookup_upsert_other m k n d hk]; exact h

/-- Folding upserts of one fixed value over a name list binds every
member of the list to that value. -/
theorem alookup_foldl_upsert_mem (l : List String)
    (m : List (String × Dispatcher)) (d : Dispatcher) (n : String)
    (h : n ∈ l) :
    alookup (l.foldl (fun m2 k => upsert m2 k d) m) n = some d := by
  induction l generalizing m with
  | nil => cases h
  | cons k t ih =>
    rcases List.mem_cons.mp h with h1 | h1
    · subst h1
      exact alookup_foldl_upsert_preserve t (upsert m n d) d n
        (alookup_upsert_self m n d)
    · exact ih (upsert m k d) h1

/-- C10: an EventHandler constructed with a name in both the one-time
and the many-times name sets maps that name to a repeatable Event, not a
OneTime: construction builds the OneTime entries first and then
overwrites colliding names with Event instances. -/
theorem handler_init_collision_spec (one many : List String) (n : String)
    (h1 : n ∈ one) (h2 : n ∈ many) :
    alookup (EventHandler.init one many).events n =
      some (Dispatcher.evt Event.new) := by
  unfold EventHandler.init
  exact alookup_foldl_upsert_mem many _ _ n h2

/-- Witness for C10: the name "a" declared both one-time and many-times
maps to a fresh repeatable Event. -/
theorem handler_init_collision_spec_witness :
    "a" ∈ ["a", "b"] ∧ "a" ∈ ["a"] ∧
    alookup (EventHandler.init ["a", "b"] ["a"]).events "a" =
      some (Dispatcher.evt Event.new) :=
  ⟨by decide, by decide,
   handler_init_collision_spec ["a", "b"] ["a"] "a" (by decide) (by decide)⟩

/-- Replacing the value at one key leaves the binding of any other key
unchanged. -/
theorem alookup_setAt_other (es : List (String × Dispatcher)) (k n : String)
    (d : Dispatcher) (h : n ≠ k) :
    alookup (setAt es k d) n = alookup es n := by
  induction es with
  | nil => simp [setAt]
  | cons p t ih =>
    by_cases hp : p.1 = k
    · subst hp
      simp [setAt, alookup, fun hh => h hh, Ne.symm h]
    · simp [setAt, hp, alookup, ih]

/-- Replacing the value at a bound key makes lookup return the new
value. -/
theorem alookup_setAt_self (es : List (String × Dispatcher)) (k : String)
    (d d0 : Dispatcher) (h : alookup es k = some d0) :
    alookup (setAt es k d) k = some d := by
  induction es with
  | nil => simp [alookup] at h
  | cons p t ih =>
    by_cases hp : p.1 = k
    · simp [setAt, hp, alookup]
    · simp [alookup, hp] at h
      simp [setAt, hp, alookup, ih h]

/-- A copy iteration for one entry of `other` does not change the
binding of any other name in `self`. -/
theorem copyStep_other (acc : EventHandler × List (Cb × Val))
    (p : String × Dispatcher) (n : String) (h : p.1 ≠ n) :
    alookup (copyStep acc p).1.events n = alookup acc.1.events n := by
  rcases p with ⟨k, d⟩
  rcases d with e | o
  · rcases hl : alookup acc.1.events k with _ | d2
    · simp [copyStep, hl]
    · simp [copyStep, hl, alookup_setAt_other _ _ _ _ (Ne.symm h)]
  · rfl

/-- A copy iteration for a repeatable-Event entry of `other` binds its
handler references into `self`'s same-named dispatcher, whatever its
kind, and does nothing when `self` has no dispatcher at the name. -/
theorem copyStep_self_evt (acc : EventHandler × List (Cb × Val))
    (k : String) (e : Event) :
    alookup (copyStep acc (k, Dispatcher.evt e)).1.events k =
      (alookup acc.1.events k).map (fun d => (bindAll d e.handlers).1) := by
  rcases hl : alookup acc.1.events k with _ | d
  · simp [copyStep, hl]
  · simp [copyStep, hl, alookup_setAt_self _ _ _ _ hl]

/-- Folding copy iterations over entries whose names avoid `n` leaves
the binding of `n` unchanged. -/
theorem copy_fold_preserve (t : List (String × Dispatcher))
    (acc : EventHandler × List (Cb × Val)) (n : String)
    (h : n ∉ t.map Prod.fst) :
    alookup (t.foldl copyStep acc).1.events n = alookup acc.1.events n := by
  induction t generalizing acc with
  | nil => rfl
  | cons p t2 ih =>
    simp only [List.map_cons, List.mem_cons] at h
    push_neg at h
    rw [List.foldl_cons, ih (copyStep acc p) h.2,
      copyStep_other acc p n (fun hh => h.1 hh.symm)]

/-- Characterization of the copy fold: the binding of a name after
copy_many_times_events, by cases on what `other` holds at that name. -/
theorem copy_fold_char (es : List (String × Dispatcher))
    (acc : EventHandler × List (Cb × Val)) (n : String)
    (nd : (es.map Prod.fst).Nodup) :
    alookup (es.foldl copyStep acc).1.events n =
      (match alookup es n with
       | some (Dispatcher.evt e) =>
         (alookup acc.1.events n).map (fun d => (bindAll d e.handlers).1)
       | some (Dispatcher.oneTime _) => alookup acc.1.events n
       | none => alookup acc.1.events n) := by
  induction es generalizing acc with
  | nil => simp [alookup]
  | cons p t ih =>
    simp only [List.map_cons, List.nodup_cons] at nd
    by_cases hk : p.1 = n
    · rw [List.foldl_cons, copy_fold_preserve t (copyStep acc p) n
        (hk ▸ nd.1)]
      rcases p with ⟨k, d⟩
      simp only at hk
      subst hk
      rcases d with e | o
      · simp [alookup, copyStep_self_evt acc k e]
      · simp [alookup, copyStep]
    · rw [List.foldl_cons, ih (copyStep acc p) nd.2]
      have hstep := copyStep_other acc p n (fun hh => hk hh)
      simp only [alookup, hk, if_false, hstep]

/-- C8 counterexample: `self` holds a OneTime under the name "a" while
`other` holds a repeatable Event with one bound callback under the same
name.  copy_many_times_events binds the callback into `self`'s OneTime
chain, so a one-time dispatcher is not left untouched as claimed. -/
theorem copy_many_times_events_counterexample :
    (EventHandler.copy_many_times_events
      ⟨[("a", Dispatcher.oneTime OneTime.new)]⟩
      ⟨[("a", Dispatcher.evt ⟨[7], 0, false⟩)]⟩).1 =
    ⟨[("a", Dispatcher.oneTime
        ⟨Deferred.new, ⟨false, none, [(7, none)]⟩, false, false⟩)]⟩ ∧
    (Dispatcher.oneTime
        ⟨Deferred.new, ⟨false, none, [(7, none)]⟩, false, false⟩ ≠
      Dispatcher.oneTime OneTime.new) := by decide

/-- C8 (amended): copy_many_times_events copies the callback references
of every repeatable Event of `other` into `self`'s dispatcher of the
same name whatever its kind — a OneTime in `self` receives them on its
chain — additively and without removing them from `other`; OneTime
entries of `other` and names with no dispatcher in `self` are left
untouched. -/
theorem copy_many_times_events_spec (h other : EventHandler) (n : String)
    (nd : (other.events.map Prod.fst).Nodup) :
    (∀ e d, alookup other.events n = some (Dispatcher.evt e) →
      alookup h.events n = some d →
      alookup (EventHandler.copy_many_times_events h other).1.events n =
        some (bindAll d e.handlers).1) ∧
    (∀ e, alookup other.events n = some (Dispatcher.evt e) →
      alookup h.events n = none →
      alookup (EventHandler.copy_many_times_events h other).1.events n =
        none) ∧
    (∀ o, alookup other.events n = some (Dispatcher.oneTime o) →
      alookup (EventHandler.copy_many_times_events h other).1.events n =
        alookup h.events n) ∧
    (alookup other.events n = none →
      alookup (EventHandler.copy_many_times_events h other).1.events n =
        alookup h.events n) := by
  have key := copy_fold_char other.events (h, []) n nd
  refine ⟨fun e d h1 h2 => ?_, fun e h1 h2 => ?_, fun o h1 => ?_,
    fun h1 => ?_⟩ <;>
    rw [h1] at key <;> simp only [] at key <;>
      simp_all [EventHandler.copy_many_times_events]

/-- Witness for C8 (amended): `other` holds an Event with callback 7
under "a" and a OneTime under "b"; `self` holds a OneTime under "a", an
Event under "b" and nothing under "c". -/
theorem copy_many_times_events_spec_witness :
    alookup (EventHandler.copy_many_times_events
        ⟨[("a", Dispatcher.oneTime OneTime.new)]⟩
        ⟨[("a", Dispatcher.evt ⟨[7], 0, false⟩)]⟩).1.events "a" =
      some (bindAll (Dispatcher.oneTime OneTime.new) [7]).1 ∧
    alookup (EventHandler.copy_many_times_events
        ⟨[("b", Dispatcher.evt ⟨[5], 1, false⟩)]⟩
        ⟨[("b", Dispatcher.oneTime OneTime.new)]⟩).1.events "b" =
      some (Dispatcher.evt ⟨[5], 1, false⟩) ∧
    alookup (EventHandler.copy_many_times_events (⟨[]⟩ : EventHandler)
        ⟨[("c", Dispatcher.evt ⟨[7], 0, false⟩)]⟩).1.events "c" = none :=
  ⟨(copy_many_times_events_spec ⟨[("a", Dispatcher.oneTime OneTime.new)]⟩
      ⟨[("a", Dispatcher.evt ⟨[7], 0, false⟩)]⟩ "a" (by decide)).1
      ⟨[7], 0, false⟩ (Dispatcher.oneTime OneTime.new) rfl rfl,
   (copy_many_times_events_spec ⟨[("b", Dispatcher.evt ⟨[5], 1, false⟩)]⟩
      ⟨[("b", Dispatcher.oneTime OneTime.new)]⟩ "b" (by decide)).2.2.1
      OneTime.new rfl,
   (copy_many_times_events_spec (⟨[]⟩ : EventHandler)
      ⟨[("c", Dispatcher.evt ⟨[7], 0, false⟩)]⟩ "c" (by decide)).2.1
      ⟨[7], 0, false⟩ rfl rfl⟩

end Pulsar
